import Mathlib

/-!
Shallow embedding of the metrics-aggregation query engine from
`runtime/queries/metricsview_aggregation.go` (package `queries`), together
with proofs about its SQL compiler (`buildMetricsAggregationSQL`,
`createPivotSQL`) and an oracle-driven model of its execution paths
(`Resolve`, the DuckDB native-pivot path, and `pivotDruid`).

Helper functions of the repository that live in files not included in the
excerpt (`safeName`, `metricsViewDimension`, `dimensionSelect`,
`buildExpression`, `timeRangeClause`, ...) are modelled from the spec and
are marked as such in their doc comments.
-/

namespace RillAgg

/-- SQL dialect of the active OLAP backend (`drivers.Dialect`); the engine
only supports DuckDB and Druid, anything else is rejected by `Resolve`. -/
inductive Dialect where
  | duckdb
  | druid
  | other (name : String)
deriving DecidableEq, Repr

/-- Time grain of a time-dimension request
(`runtimev1.TimeGrain`; `TIME_GRAIN_UNSPECIFIED` marks a plain dimension). -/
inductive TimeGrain where
  | unspecified
  | millisecond
  | second
  | minute
  | hour
  | day
  | week
  | month
  | quarter
  | year
deriving DecidableEq, Repr

/-- Positional SQL argument (bound parameter). -/
abbrev Arg := String

/-- Requested time range (`runtimev1.TimeRange`); `endTime` models the Go
field `End`. -/
structure TimeRange where
  start : Option String
  endTime : Option String
deriving DecidableEq, Repr

/-- Modelled from the spec: the structured boolean expression tree
(`runtimev1.Expression`) together with its compiler `buildExpression`
(§4.2), which is not part of the excerpt.  The tree is modelled by its
compiled image: the dialect-safe SQL fragment and its bound parameters. -/
structure Expression where
  frag : String
  args : List Arg
deriving DecidableEq, Repr

/-- Modelled from the spec: the legacy filter object
(`runtimev1.MetricsViewFilter`), modelled by the expression it is converted
to by `convertFilterToExpression`. -/
structure LegacyFilter where
  compiled : Expression
deriving DecidableEq, Repr

/-- A `structpb.Value` argument of a builtin measure; `GetStringValue`
returns the empty string for non-string values. -/
inductive PbValue where
  | strVal (s : String)
  | otherVal
deriving DecidableEq, Repr

/-- Go `structpb.Value.GetStringValue`. -/
def PbValue.getStringValue : PbValue → String
  | PbValue.strVal s => s
  | PbValue.otherVal => ""

/-- Builtin measure selector (`runtimev1.BuiltinMeasure`); `other` models any
enum value outside the known set. -/
inductive BuiltinMeasure where
  | unspecified
  | count
  | countDistinct
  | other (n : Int)
deriving DecidableEq, Repr

/-- A requested dimension (`runtimev1.MetricsViewAggregationDimension`). -/
structure AggDimension where
  name : String
  timeGrain : TimeGrain
  timeZone : String
deriving DecidableEq, Repr

/-- A requested measure (`runtimev1.MetricsViewAggregationMeasure`). -/
structure AggMeasure where
  name : String
  builtinMeasure : BuiltinMeasure
  builtinMeasureArgs : List PbValue
deriving DecidableEq, Repr

/-- A sort entry (`runtimev1.MetricsViewAggregationSort`). -/
structure AggSort where
  name : String
  desc : Bool
deriving DecidableEq, Repr

/-- A dimension declared on the metrics view
(`runtimev1.MetricsViewSpec_DimensionV2`). -/
structure MVDimension where
  name : String
  column : String
  expression : String
  unnest : Bool
deriving DecidableEq, Repr

/-- A measure declared on the metrics view
(`runtimev1.MetricsViewSpec_MeasureV2`). -/
structure MVMeasure where
  name : String
  expression : String
deriving DecidableEq, Repr

/-- The metrics view specification (`runtimev1.MetricsViewSpec`), restricted
to the fields the aggregation query reads. -/
structure MetricsViewSpec where
  table : String
  timeDimension : String
  dimensions : List MVDimension
  measures : List MVMeasure
deriving DecidableEq, Repr

/-- The resolved row-level security policy
(`runtime.ResolvedMetricsViewSecurity`), restricted to the row filter the
builder injects. -/
structure ResolvedSecurity where
  rowFilter : String
deriving DecidableEq, Repr

/-- The aggregation request (`MetricsViewAggregation` struct).  `whereExpr`
and `havingExpr` model the Go fields `Where` and `Having`; `limit` models
the `*int64` field `Limit` (a `nil` pointer is `none`). -/
structure MVAgg where
  metricsViewName : String
  dimensions : List AggDimension
  measures : List AggMeasure
  sort : List AggSort
  timeRange : Option TimeRange
  whereExpr : Option Expression
  havingExpr : Option Expression
  priority : Int
  limit : Option Int
  offset : Int
  metricsView : MetricsViewSpec
  resolvedMVSecurity : Option ResolvedSecurity
  pivotOn : List String
  filter : Option LegacyFilter
deriving DecidableEq, Repr

/-- `var maxPivotCells = 1_000_000`. -/
def maxPivotCells : Nat := 1000000

/-- `func (q *MetricsViewAggregation) cols() int`. -/
def MVAgg.cols (q : MVAgg) : Nat :=
  q.dimensions.length + q.measures.length

/-- A single-quote character, used when assembling SQL literals. -/
def sq : String := "\x27"

/-- Modelled from the spec: `safeName` (not in the excerpt) safe-quotes an
identifier for SQL by wrapping it in double quotes, doubling any embedded
double quote. -/
def safeName (name : String) : String :=
  "\"" ++ name.replace ("\"") ("\"\"") ++ "\""

/-- Modelled from the spec: `tempName` (not in the excerpt) derives a fresh
temporary table name from a prefix; modelled deterministically. -/
def tempName (p : String) : String := p ++ "tmp"

/-- Modelled from the spec: `convertToDateTruncSpecifier` (not in the
excerpt) maps a time grain to a `date_trunc` specifier. -/
def convertToDateTruncSpecifier : TimeGrain → String
  | TimeGrain.unspecified => ""
  | TimeGrain.millisecond => "MILLISECOND"
  | TimeGrain.second => "SECOND"
  | TimeGrain.minute => "MINUTE"
  | TimeGrain.hour => "HOUR"
  | TimeGrain.day => "DAY"
  | TimeGrain.week => "WEEK"
  | TimeGrain.month => "MONTH"
  | TimeGrain.quarter => "QUARTER"
  | TimeGrain.year => "YEAR"

/-- Modelled from the spec: `convertToDruidTimeFloorSpecifier` (not in the
excerpt) maps a time grain to a Druid `time_floor` ISO period. -/
def convertToDruidTimeFloorSpecifier : TimeGrain → String
  | TimeGrain.unspecified => ""
  | TimeGrain.millisecond => "PT0.001S"
  | TimeGrain.second => "PT1S"
  | TimeGrain.minute => "PT1M"
  | TimeGrain.hour => "PT1H"
  | TimeGrain.day => "P1D"
  | TimeGrain.week => "P1W"
  | TimeGrain.month => "P1M"
  | TimeGrain.quarter => "P3M"
  | TimeGrain.year => "P1Y"

/-- Modelled from the spec: the metrics-view resolver
`metricsViewDimension` (§4.1, not in the excerpt) looks a declared
dimension up by name and fails with a not-found error otherwise. -/
def metricsViewDimension (mv : MetricsViewSpec) (name : String) :
    Except String MVDimension :=
  match mv.dimensions.find? (fun d => d.name = name) with
  | some d => Except.ok d
  | none => Except.error ("dimension " ++ sq ++ name ++ sq ++ " not found")

/-- Modelled from the spec: `metricsViewDimensionExpression` (not in the
excerpt) resolves a declared dimension to its computed expression or its
safe-quoted underlying column. -/
def metricsViewDimensionExpression (d : MVDimension) : String :=
  if d.expression ≠ "" then d.expression else safeName d.column

/-- Modelled from the spec: `dimensionSelect` (§4.1, not in the excerpt)
produces the SELECT-list entry of a dimension and, for array-typed
(unnest) dimensions, a LATERAL UNNEST clause to append to FROM; the
SELECT expression then references the unnested alias. -/
def dimensionSelect (_mv : MetricsViewSpec) (d : MVDimension)
    (_dialect : Dialect) : String × String :=
  if d.unnest then
    let al := safeName ("unnested_" ++ d.name)
    (al ++ " as " ++ safeName d.name,
      ", LATERAL UNNEST(" ++ metricsViewDimensionExpression d
        ++ ") tbl_unnest(" ++ al ++ ")")
  else
    (metricsViewDimensionExpression d ++ " as " ++ safeName d.name, "")

/-- Modelled from the spec: `metricsViewMeasureExpression` (§4.1, not in
the excerpt) resolves a declared measure to its SQL expression and fails
with a not-found error otherwise. -/
def metricsViewMeasureExpression (mv : MetricsViewSpec) (name : String) :
    Except String String :=
  match mv.measures.find? (fun m => m.name = name) with
  | some m => Except.ok m.expression
  | none => Except.error ("measure " ++ sq ++ name ++ sq ++ " not found")

/-- Modelled from the spec: the expression compiler `buildExpression`
(§4.2, not in the excerpt); since `Expression` is modelled by its compiled
image, compilation returns that image. -/
def buildExpression (_mv : MetricsViewSpec) (e : Expression)
    (_dialect : Dialect) : String × List Arg :=
  (e.frag, e.args)

/-- Modelled from the spec: `convertFilterToExpression` (not in the
excerpt) converts the legacy filter object to a structured expression. -/
def convertFilterToExpression (f : LegacyFilter) : Expression :=
  f.compiled

/-- Modelled from the spec: `isTimeRangeNil` (not in the excerpt) — a time
range is nil when absent or when it carries neither bound. -/
def isTimeRangeNil (tr : Option TimeRange) : Bool :=
  match tr with
  | none => true
  | some t => t.start.isNone && t.endTime.isNone

/-- Modelled from the spec: `timeRangeClause` (§4.4 step 4, not in the
excerpt) turns the requested time range into an interval predicate over
the (safe-quoted) time dimension, contributing `" AND ..."` conjuncts and
bound parameters; an absent range contributes nothing. -/
def timeRangeClause (tr : Option TimeRange) (timeCol : String) :
    String × List Arg :=
  match tr with
  | none => ("", [])
  | some t =>
    let p1 : String × List Arg :=
      match t.start with
      | none => ("", [])
      | some s => (" AND " ++ timeCol ++ " >= ?", [s])
    let p2 : String × List Arg :=
      match t.endTime with
      | none => ("", [])
      | some e => (" AND " ++ timeCol ++ " < ?", [e])
    (p1.1 ++ p2.1, p1.2 ++ p2.2)

/-- `func (q *MetricsViewAggregation) buildTimestampExpr(...)`: the
time-bucket expression of a time-dimension request (source lines
579-609), including the timezone-wrapping variants per dialect. -/
def buildTimestampExpr (mv : MetricsViewSpec) (d : AggDimension)
    (dialect : Dialect) : Except String (String × List Arg) :=
  let colRes : Except String String :=
    if d.name = mv.timeDimension then Except.ok (safeName d.name)
    else
      match metricsViewDimension mv d.name with
      | Except.error e => Except.error e
      | Except.ok dd =>
        if dd.expression ≠ "" then
          Except.error ("expression dimension not supported as time column")
        else Except.ok (metricsViewDimensionExpression dd)
  match colRes with
  | Except.error e => Except.error e
  | Except.ok col =>
    match dialect with
    | Dialect.duckdb =>
      if d.timeZone = "" ∨ d.timeZone = "UTC" then
        Except.ok ("date_trunc(" ++ sq ++ convertToDateTruncSpecifier d.timeGrain
          ++ sq ++ ", " ++ col ++ ")", [])
      else
        Except.ok ("timezone(?, date_trunc(" ++ sq
          ++ convertToDateTruncSpecifier d.timeGrain ++ sq
          ++ ", timezone(?, " ++ col ++ "::TIMESTAMPTZ)))",
          [d.timeZone, d.timeZone])
    | Dialect.druid =>
      if d.timeZone = "" ∨ d.timeZone = "UTC" then
        Except.ok ("date_trunc(" ++ sq ++ convertToDateTruncSpecifier d.timeGrain
          ++ sq ++ ", " ++ col ++ ")", [])
      else
        Except.ok ("time_floor(" ++ col ++ ", " ++ sq
          ++ convertToDruidTimeFloorSpecifier d.timeGrain ++ sq
          ++ ", null, CAST(? AS VARCHAR)))", [d.timeZone])
    | Dialect.other name =>
      Except.error ("unsupported dialect " ++ name)

/-- Accumulator of the dimension loop of `buildMetricsAggregationSQL`
(source lines 415-446): the growing SELECT list, the GROUP BY ordinals,
the UNNEST clauses and the collected time-bucket args. -/
structure DimAcc where
  selectCols : List String
  groupCols : List String
  unnestClauses : List String
  args : List Arg
deriving DecidableEq, Repr

/-- The dimension loop of `buildMetricsAggregationSQL` (source lines
418-446): each dimension appends its SELECT entry and then records the
new SELECT-list length as its GROUP BY ordinal. -/
def processDims (mv : MetricsViewSpec) (dialect : Dialect) :
    List AggDimension → DimAcc → Except String DimAcc
  | [], acc => Except.ok acc
  | d :: rest, acc =>
    if d.timeGrain = TimeGrain.unspecified then
      match metricsViewDimension mv d.name with
      | Except.error e => Except.error e
      | Except.ok dim =>
        let ds := dimensionSelect mv dim dialect
        let newSelect := acc.selectCols ++ [ds.1]
        processDims mv dialect rest
          { selectCols := newSelect
            groupCols := acc.groupCols ++ [toString newSelect.length]
            unnestClauses :=
              if ds.2 ≠ "" then acc.unnestClauses ++ [ds.2]
              else acc.unnestClauses
            args := acc.args }
    else
      match buildTimestampExpr mv d dialect with
      | Except.error e => Except.error e
      | Except.ok ea =>
        let newSelect := acc.selectCols ++ [ea.1 ++ " as " ++ safeName d.name]
        processDims mv dialect rest
          { selectCols := newSelect
            groupCols := acc.groupCols ++ [toString newSelect.length]
            unnestClauses := acc.unnestClauses
            args := acc.args ++ ea.2 }

/-- The measure loop of `buildMetricsAggregationSQL` (source lines
448-471): measures are appended to the SELECT list after all
dimensions. -/
def processMeasures (mv : MetricsViewSpec) :
    List AggMeasure → List String → Except String (List String)
  | [], acc => Except.ok acc
  | m :: rest, acc =>
    let sn := safeName m.name
    match m.builtinMeasure with
    | BuiltinMeasure.unspecified =>
      match metricsViewMeasureExpression mv m.name with
      | Except.error e => Except.error e
      | Except.ok expr => processMeasures mv rest (acc ++ [expr ++ " as " ++ sn])
    | BuiltinMeasure.count =>
      processMeasures mv rest (acc ++ ["COUNT(*) as " ++ sn])
    | BuiltinMeasure.countDistinct =>
      match m.builtinMeasureArgs with
      | [a] =>
        if a.getStringValue = "" then
          Except.error ("builtin measure BUILTIN_MEASURE_COUNT_DISTINCT expects non-empty string argument")
        else
          processMeasures mv rest
            (acc ++ ["COUNT(DISTINCT " ++ safeName a.getStringValue ++ ") as " ++ sn])
      | _ =>
        Except.error ("builtin measure BUILTIN_MEASURE_COUNT_DISTINCT expects 1 argument")
    | BuiltinMeasure.other n =>
      Except.error ("unknown builtin measure " ++ toString n)

/-- The sort loop of `buildMetricsAggregationSQL` (source lines 518-528):
safe-quoted field name, then ` DESC` when descending, then ` NULLS LAST`
exactly when the dialect is DuckDB. -/
def sortCriteria (sort : List AggSort) (dialect : Dialect) : List String :=
  sort.map (fun s =>
    safeName s.name
      ++ (if s.desc then " DESC" else "")
      ++ (if dialect = Dialect.duckdb then " NULLS LAST" else ""))

/-- The time-range conjunct of the WHERE clause (source lines 479-486):
present only when the view declares a time dimension. -/
def timeClausePart (q : MVAgg) (mv : MetricsViewSpec) : String :=
  if mv.timeDimension ≠ "" then
    (timeRangeClause q.timeRange (safeName mv.timeDimension)).1
  else ""

/-- The args contributed by the time-range clause (source line 481). -/
def timeArgsOf (q : MVAgg) (mv : MetricsViewSpec) : List Arg :=
  if mv.timeDimension ≠ "" then
    (timeRangeClause q.timeRange (safeName mv.timeDimension)).2
  else []

/-- The compiled structured WHERE fragment (source lines 487-496); empty
when no WHERE expression is present. -/
def whereFragPart (q : MVAgg) (mv : MetricsViewSpec) (dialect : Dialect) :
    String :=
  match q.whereExpr with
  | none => ""
  | some e => (buildExpression mv e dialect).1

/-- The args contributed by the structured WHERE expression (source line
495); note the source appends them even when the fragment is blank. -/
def whereArgsOf (q : MVAgg) (mv : MetricsViewSpec) (dialect : Dialect) :
    List Arg :=
  match q.whereExpr with
  | none => []
  | some e => (buildExpression mv e dialect).2

/-- Modelled from the Go code, which uses `strings.TrimSpace`: drop leading
and trailing whitespace (kernel-computable counterpart of `String.trim`). -/
def trimSpace (s : String) : String :=
  String.mk (((s.data.dropWhile Char.isWhitespace).reverse.dropWhile
    Char.isWhitespace).reverse)

/-- The security row filter injected into WHERE (source lines 497-499). -/
def rowFilterPart (policy : Option ResolvedSecurity) : String :=
  match policy with
  | none => ""
  | some p => p.rowFilter

/-- The WHERE clause assembly of `buildMetricsAggregationSQL` (source
lines 478-502): time-range conjunct, then the non-blank structured WHERE
fragment, then the parenthesised row filter, prefixed by the `WHERE 1=1`
sentinel exactly when anything was collected. -/
def whereClauseOf (q : MVAgg) (mv : MetricsViewSpec) (dialect : Dialect)
    (policy : Option ResolvedSecurity) : String :=
  let wc0 := timeClausePart q mv
  let frag := whereFragPart q mv dialect
  let wc1 := if trimSpace frag ≠ "" then wc0 ++ " AND " ++ frag else wc0
  let rf := rowFilterPart policy
  let wc2 := if rf ≠ "" then wc1 ++ " AND (" ++ rf ++ ")" else wc1
  if wc2 ≠ "" then "WHERE 1=1" ++ wc2 else wc2

/-- The HAVING clause of `buildMetricsAggregationSQL` (source lines
504-516): the compiled fragment, prefixed with `HAVING ` only when it is
not blank (a blank fragment is kept verbatim, as in the source). -/
def havingClauseOf (q : MVAgg) (mv : MetricsViewSpec) (dialect : Dialect) :
    String :=
  match q.havingExpr with
  | none => ""
  | some e =>
    let frag := (buildExpression mv e dialect).1
    if trimSpace frag ≠ "" then "HAVING " ++ frag else frag

/-- The args contributed by the HAVING expression (source line 515). -/
def havingArgsOf (q : MVAgg) (mv : MetricsViewSpec) (dialect : Dialect) :
    List Arg :=
  match q.havingExpr with
  | none => []
  | some e => (buildExpression mv e dialect).2

/-- The GROUP BY clause (source lines 473-476): ordinals joined with
commas, omitted when there are none. -/
def groupClauseOf (dacc : DimAcc) : String :=
  if dacc.groupCols = [] then ""
  else "GROUP BY " ++ String.intercalate (", ") dacc.groupCols

/-- The ORDER BY clause (source lines 529-532). -/
def orderClauseOf (q : MVAgg) (dialect : Dialect) : String :=
  if sortCriteria q.sort dialect = [] then ""
  else "ORDER BY " ++ String.intercalate (", ") (sortCriteria q.sort dialect)

/-- The LIMIT clause of both builders (source lines 325-331 and 534-540):
a `nil` limit emits nothing, an explicit limit of 0 is printed as the
normalized default 100. -/
def limitClauseOf : Option Int → String
  | none => ""
  | some l => if l = 0 then "LIMIT 100" else "LIMIT " ++ toString l

/-- The clause components collected by `buildMetricsAggregationSQL` before
the LIMIT/pivot step (source lines 407-532). -/
structure Clauses where
  selectCols : List String
  unnestClauses : List String
  args : List Arg
  groupClause : String
  whereClause : String
  havingClause : String
  orderClause : String
deriving DecidableEq, Repr

/-- Clause collection of `buildMetricsAggregationSQL` (source lines
407-532): validation of the empty request, the dimension and measure
loops, and the GROUP BY/WHERE/HAVING/ORDER BY assembly, with args
collected in source order (time-bucket args, time-range args, WHERE args,
HAVING args). -/
def buildClauses (q : MVAgg) (mv : MetricsViewSpec) (dialect : Dialect)
    (policy : Option ResolvedSecurity) : Except String Clauses :=
  if q.dimensions = [] ∧ q.measures = [] then
    Except.error ("no dimensions or measures specified")
  else
    match processDims mv dialect q.dimensions ⟨[], [], [], []⟩ with
    | Except.error e => Except.error e
    | Except.ok dacc =>
      match processMeasures mv q.measures dacc.selectCols with
      | Except.error e => Except.error e
      | Except.ok selectCols =>
        Except.ok
          { selectCols := selectCols
            unnestClauses := dacc.unnestClauses
            args := dacc.args ++ timeArgsOf q mv ++ whereArgsOf q mv dialect
              ++ havingArgsOf q mv dialect
            groupClause := groupClauseOf dacc
            whereClause := whereClauseOf q mv dialect policy
            havingClause := havingClauseOf q mv dialect
            orderClause := orderClauseOf q dialect }

/-- `func (q *MetricsViewAggregation) buildMetricsAggregationSQL(...)`
(source lines 407-577).  The first component of the result is the request
after the in-place mutation done by the builder of `*q.Limit` (an explicit 0 is
overwritten with 100 once the limit step is reached); the second is the
compiled SQL and args, or the error.  With a pivot axis the limit clause
is overridden to `maxPivotCells/cols + 1` and a nonzero offset is
rejected; without one the SQL ends with the limit clause and a verbatim
`OFFSET`. -/
def buildMetricsAggregationSQL (q : MVAgg) (mv : MetricsViewSpec)
    (dialect : Dialect) (policy : Option ResolvedSecurity) :
    MVAgg × Except String (String × List Arg) :=
  match buildClauses q mv dialect policy with
  | Except.error e => (q, Except.error e)
  | Except.ok c =>
    let q2 := if q.limit = some 0 then { q with limit := some 100 } else q
    let limitClause := limitClauseOf q.limit
    if q.pivotOn ≠ [] then
      let pivotLimitClause :=
        "LIMIT " ++ toString (maxPivotCells / q.cols + 1)
      if q.offset ≠ 0 then
        (q2, Except.error ("offset not supported for pivot queries"))
      else
        (q2, Except.ok
          ("SELECT " ++ String.intercalate (", ") c.selectCols
            ++ " FROM " ++ safeName mv.table
            ++ " " ++ String.join c.unnestClauses
            ++ " " ++ c.whereClause
            ++ " " ++ c.groupClause
            ++ " " ++ c.havingClause
            ++ " " ++ c.orderClause
            ++ " " ++ pivotLimitClause, c.args))
    else
      (q2, Except.ok
        ("SELECT " ++ String.intercalate (", ") c.selectCols
          ++ " FROM " ++ safeName mv.table
          ++ " " ++ String.join c.unnestClauses
          ++ " " ++ c.whereClause
          ++ " " ++ c.groupClause
          ++ " " ++ c.havingClause
          ++ " " ++ c.orderClause
          ++ " " ++ limitClause
          ++ " OFFSET " ++ toString q.offset, c.args))

/-- `func (q *MetricsViewAggregation) createPivotSQL(...)` (source lines
303-342).  The first component is the request after the in-place limit
normalization (`*q.Limit == 0` is overwritten with 100); the second is the
generated `PIVOT ... ON ... USING LAST(...)` SQL. -/
def createPivotSQL (q : MVAgg) (temporaryTableName : String) :
    MVAgg × String :=
  let measureCols := q.measures.map (fun m =>
    "LAST(" ++ safeName m.name ++ ") as " ++ safeName m.name)
  let sortingCriteria := q.sort.map (fun s =>
    safeName s.name ++ (if s.desc then " DESC" else "") ++ " NULLS LAST")
  let orderClause :=
    if sortingCriteria = [] then ""
    else "ORDER BY " ++ String.intercalate (", ") sortingCriteria
  let q2 := if q.limit = some 0 then { q with limit := some 100 } else q
  let limitClause := limitClauseOf q.limit
  (q2, "PIVOT " ++ temporaryTableName
    ++ " ON " ++ String.intercalate (", ") q.pivotOn
    ++ " USING " ++ String.intercalate (", ") measureCols
    ++ " " ++ orderClause
    ++ " " ++ limitClause
    ++ " OFFSET " ++ toString q.offset)

/-- Outcome of scanning/appending one row of the streamed Druid result in
`pivotDruid` (source lines 243-254): either both the `Scan` and the
`AppendRowArray` succeed, or one of them fails with a driver error. -/
inductive ScanOutcome where
  | ok
  | scanErr (e : String)
  | appendErr (e : String)
deriving DecidableEq, Repr

/-- The streaming append loop of `pivotDruid` (source lines 240-265):
`count` counts rows appended since the last flush; after a successful
append the loop fails once `count` exceeds `maxCount`, and resets `count`
to 0 whenever it reaches `batchSize` (the flush).  Note the reset also
resets the budget counter. -/
def appendLoop (maxCount batchSize : Nat) :
    List ScanOutcome → Nat → Except String Unit
  | [], _ => Except.ok ()
  | s :: rest, count =>
    match s with
    | ScanOutcome.scanErr e => Except.error e
    | ScanOutcome.appendErr e => Except.error e
    | ScanOutcome.ok =>
      let c := count + 1
      if c > maxCount then
        Except.error ("PIVOT cells count limit exceeded " ++ toString maxPivotCells)
      else if c ≥ batchSize then appendLoop maxCount batchSize rest 0
      else appendLoop maxCount batchSize rest c

/-- Outcome of the `SELECT COUNT(*)` probe in the DuckDB pivot path
(source lines 133-154): the `Execute` can fail, return no row, fail at
`Scan`, or yield a count. -/
inductive CountProbe where
  | execFail (e : String)
  | noRow
  | scanFail (e : String)
  | row (count : Nat)
deriving DecidableEq, Repr

/-- A backend query/statement execution attempted by `Resolve` or the
pivot subsystem (used to trace which executions a run performs). -/
inductive BackendCall where
  | baseAggQuery
  | createTempTable
  | countQuery
  | pivotQuery
  | dropTempTable
  | druidBaseExec
  | localCreateTable
  | localAppend
  | localPivotQuery
  | localDropTable
deriving DecidableEq, Repr

/-- Oracle fixing the outcome of every backend interaction a run of
`Resolve` may perform; the interpreter below threads it through the
control flow of the source. -/
structure Oracle where
  acquireErr : Option String
  dialect : Dialect
  withConnErr : Option String
  baseQueryErr : Option String
  createTempErr : Option String
  countProbe : CountProbe
  duckPivotErr : Option String
  druidExecErr : Option String
  connectErr : Option String
  createTableSQLErr : Option String
  execCreateErr : Option String
  localConnErr : Option String
  appenderErr : Option String
  stream : List ScanOutcome
  rowsErr : Option String
  localPivotErr : Option String
deriving DecidableEq, Repr

/-- Observable outcome of a run: the Go error return (`none` models a nil
error), whether `q.Result` was set, the request after in-place mutations,
whether the DuckDB temp table resp. the local pivot table was created and
dropped, and the trace of attempted backend executions. -/
structure Outcome where
  qOut : MVAgg
  retErr : Option String
  hasResult : Bool
  tempCreated : Bool
  tempDropped : Bool
  localCreated : Bool
  localDropped : Bool
  executed : List BackendCall
deriving DecidableEq, Repr

/-- Continuation of the DuckDB pivot path after the count probe passed
(source lines 156-172): only here is the deferred `DROP TABLE`
registered, so every exit below drops the temp table. -/
def duckdbAfterProbe (q : MVAgg) (o : Oracle) : Outcome :=
  let q2 := (createPivotSQL q (tempName ("_for_pivot_"))).1
  match o.duckPivotErr with
  | some e =>
    { qOut := q2, retErr := some e, hasResult := false,
      tempCreated := true, tempDropped := true,
      localCreated := false, localDropped := false,
      executed := [BackendCall.createTempTable, BackendCall.countQuery,
        BackendCall.pivotQuery, BackendCall.dropTempTable] }
  | none =>
    { qOut := q2, retErr := none, hasResult := true,
      tempCreated := true, tempDropped := true,
      localCreated := false, localDropped := false,
      executed := [BackendCall.createTempTable, BackendCall.countQuery,
        BackendCall.pivotQuery, BackendCall.dropTempTable] }

/-- The DuckDB (native-pivot) branch of `Resolve` (source lines 120-174):
create the temp table from the base SQL, probe `COUNT(*)`, fail with the
PIVOT-cells error when the count exceeds `maxPivotCells/cols`, and only
after that check register the deferred drop and run the pivot query.
Exits taken before the deferred drop is registered leave the temp table
in place. -/
def duckdbPivotPath (q : MVAgg) (o : Oracle) : Outcome :=
  match o.withConnErr with
  | some e =>
    { qOut := q, retErr := some e, hasResult := false,
      tempCreated := false, tempDropped := false,
      localCreated := false, localDropped := false, executed := [] }
  | none =>
    match o.createTempErr with
    | some e =>
      { qOut := q, retErr := some e, hasResult := false,
        tempCreated := false, tempDropped := false,
        localCreated := false, localDropped := false,
        executed := [BackendCall.createTempTable] }
    | none =>
      match o.countProbe with
      | CountProbe.execFail e =>
        { qOut := q, retErr := some e, hasResult := false,
          tempCreated := true, tempDropped := false,
          localCreated := false, localDropped := false,
          executed := [BackendCall.createTempTable, BackendCall.countQuery] }
      | CountProbe.scanFail e =>
        { qOut := q, retErr := some e, hasResult := false,
          tempCreated := true, tempDropped := false,
          localCreated := false, localDropped := false,
          executed := [BackendCall.createTempTable, BackendCall.countQuery] }
      | CountProbe.row count =>
        if count > maxPivotCells / q.cols then
          { qOut := q,
            retErr := some ("PIVOT cells count exceeded " ++ toString maxPivotCells),
            hasResult := false,
            tempCreated := true, tempDropped := false,
            localCreated := false, localDropped := false,
            executed := [BackendCall.createTempTable, BackendCall.countQuery] }
        else duckdbAfterProbe q o
      | CountProbe.noRow => duckdbAfterProbe q o

/-- `func (q *MetricsViewAggregation) pivotDruid(...)` (source lines
190-301): connect to a fresh local DuckDB, create a matching temp table,
stream-append the Druid rows with the batched budget check, then run the
pivot SQL; the deferred drop of the local table is registered right after
its creation.  The `pivotDB.Conn` failure branch returns a nil error
(source line 214, `return nil`). -/
def pivotDruid (q : MVAgg) (o : Oracle) : Outcome :=
  match o.connectErr with
  | some e =>
    { qOut := q, retErr := some e, hasResult := false,
      tempCreated := false, tempDropped := false,
      localCreated := false, localDropped := false, executed := [] }
  | none =>
    match o.createTableSQLErr with
    | some e =>
      { qOut := q, retErr := some e, hasResult := false,
        tempCreated := false, tempDropped := false,
        localCreated := false, localDropped := false, executed := [] }
    | none =>
      match o.execCreateErr with
      | some e =>
        { qOut := q, retErr := some e, hasResult := false,
          tempCreated := false, tempDropped := false,
          localCreated := false, localDropped := false,
          executed := [BackendCall.localCreateTable] }
      | none =>
        match o.localConnErr with
        | some _ =>
          { qOut := q, retErr := none, hasResult := false,
            tempCreated := false, tempDropped := false,
            localCreated := true, localDropped := true,
            executed := [BackendCall.localCreateTable, BackendCall.localDropTable] }
        | none =>
          match o.appenderErr with
          | some e =>
            { qOut := q, retErr := some e, hasResult := false,
              tempCreated := false, tempDropped := false,
              localCreated := true, localDropped := true,
              executed := [BackendCall.localCreateTable, BackendCall.localDropTable] }
          | none =>
            match appendLoop (maxPivotCells / q.cols) 10000 o.stream 0 with
            | Except.error e =>
              { qOut := q, retErr := some e, hasResult := false,
                tempCreated := false, tempDropped := false,
                localCreated := true, localDropped := true,
                executed := [BackendCall.localCreateTable, BackendCall.localAppend,
                  BackendCall.localDropTable] }
            | Except.ok _ =>
              match o.rowsErr with
              | some e =>
                { qOut := q, retErr := some e, hasResult := false,
                  tempCreated := false, tempDropped := false,
                  localCreated := true, localDropped := true,
                  executed := [BackendCall.localCreateTable, BackendCall.localAppend,
                    BackendCall.localDropTable] }
              | none =>
                let q2 := (createPivotSQL q (tempName ("_for_pivot_"))).1
                match o.localPivotErr with
                | some e =>
                  { qOut := q2, retErr := some e, hasResult := false,
                    tempCreated := false, tempDropped := false,
                    localCreated := true, localDropped := true,
                    executed := [BackendCall.localCreateTable, BackendCall.localAppend,
                      BackendCall.localPivotQuery, BackendCall.localDropTable] }
                | none =>
                  { qOut := q2, retErr := none, hasResult := true,
                    tempCreated := false, tempDropped := false,
                    localCreated := true, localDropped := true,
                    executed := [BackendCall.localCreateTable, BackendCall.localAppend,
                      BackendCall.localPivotQuery, BackendCall.localDropTable] }

/-- The tail of `Resolve` after its validations (source lines 101-188):
build the SQL, then dispatch on the pivot axis and dialect.  A nil pivot
axis runs the base aggregation; DuckDB runs the native-pivot path; Druid
executes the base SQL and hands the row stream to `pivotDruid` — and its
`Execute` failure branch returns a nil error (source line 183,
`return nil`). -/
def resolveAfterValidate (q : MVAgg) (o : Oracle) : Outcome :=
  match buildMetricsAggregationSQL q q.metricsView o.dialect
      q.resolvedMVSecurity with
  | (q2, Except.error e) =>
    { qOut := q2, retErr := some ("error building query: " ++ e),
      hasResult := false,
      tempCreated := false, tempDropped := false,
      localCreated := false, localDropped := false, executed := [] }
  | (q2, Except.ok _) =>
    if q2.pivotOn = [] then
      match o.baseQueryErr with
      | some e =>
        { qOut := q2, retErr := some e, hasResult := false,
          tempCreated := false, tempDropped := false,
          localCreated := false, localDropped := false,
          executed := [BackendCall.baseAggQuery] }
      | none =>
        { qOut := q2, retErr := none, hasResult := true,
          tempCreated := false, tempDropped := false,
          localCreated := false, localDropped := false,
          executed := [BackendCall.baseAggQuery] }
    else if o.dialect = Dialect.duckdb then duckdbPivotPath q2 o
    else
      match o.druidExecErr with
      | some _ =>
        { qOut := q2, retErr := none, hasResult := false,
          tempCreated := false, tempDropped := false,
          localCreated := false, localDropped := false,
          executed := [BackendCall.druidBaseExec] }
      | none =>
        let out := pivotDruid q2 o
        { out with executed := BackendCall.druidBaseExec :: out.executed }

/-- `func (q *MetricsViewAggregation) Resolve(...)` (source lines 78-188):
acquire the OLAP handle, reject unsupported dialects, reject a time range
without a declared time dimension, convert the legacy filter (rejecting
the ambiguous case), then continue with the build and execution. -/
def Resolve (q : MVAgg) (o : Oracle) : Outcome :=
  match o.acquireErr with
  | some e =>
    { qOut := q, retErr := some e, hasResult := false,
      tempCreated := false, tempDropped := false,
      localCreated := false, localDropped := false, executed := [] }
  | none =>
    if o.dialect ≠ Dialect.duckdb ∧ o.dialect ≠ Dialect.druid then
      { qOut := q, retErr := some ("not available for dialect"),
        hasResult := false,
        tempCreated := false, tempDropped := false,
        localCreated := false, localDropped := false, executed := [] }
    else if q.metricsView.timeDimension = "" ∧ isTimeRangeNil q.timeRange = false then
      { qOut := q, retErr := some ("metrics view does not have a time dimension"),
        hasResult := false,
        tempCreated := false, tempDropped := false,
        localCreated := false, localDropped := false, executed := [] }
    else
      match q.filter with
      | some f =>
        if q.whereExpr ≠ none then
          { qOut := q, retErr := some ("both filter and where is provided"),
            hasResult := false,
            tempCreated := false, tempDropped := false,
            localCreated := false, localDropped := false, executed := [] }
        else
          resolveAfterValidate
            { q with whereExpr := some (convertFilterToExpression f) } o
      | none => resolveAfterValidate q o

/-- JSON rendering of a string field value (modelled; embedded quotes are
not escaped because no claim depends on them). -/
def jsonStr (s : String) : String := "\"" ++ s ++ "\""

/-- JSON rendering of the `limit,omitempty` field of the request: a nil
pointer is omitted, a present pointer renders its value. -/
def jsonLimitField : Option Int → String
  | none => ""
  | some l => "\"limit\":" ++ toString l ++ ","

/-- JSON rendering of the request fields that precede `Limit` in the
struct (struct-tag order: metrics_view, dimensions, measures, sort,
time_range, where, having, priority), modelled via `Repr` of the
embedded values. -/
def jsonPre (q : MVAgg) : String :=
  "\x7b\"metrics_view\":" ++ jsonStr q.metricsViewName
    ++ ",\"dimensions\":" ++ toString (reprStr q.dimensions)
    ++ ",\"measures\":" ++ toString (reprStr q.measures)
    ++ ",\"sort\":" ++ toString (reprStr q.sort)
    ++ ",\"time_range\":" ++ toString (reprStr q.timeRange)
    ++ ",\"where\":" ++ toString (reprStr q.whereExpr)
    ++ ",\"having\":" ++ toString (reprStr q.havingExpr)
    ++ ",\"priority\":" ++ toString q.priority ++ ","

/-- JSON rendering of the request fields that follow `Limit` in the
struct (offset, security, pivot_on, filter). -/
def jsonPost (q : MVAgg) : String :=
  "\"offset\":" ++ toString q.offset
    ++ ",\"security\":" ++ toString (reprStr q.resolvedMVSecurity)
    ++ ",\"pivot_on\":" ++ toString (reprStr q.pivotOn)
    ++ ",\"filter\":" ++ toString (reprStr q.filter) ++ "\x7d"

/-- The JSON marshalling of the request used by the cache key (modelled
after `encoding/json` on the struct tags; `MetricsView` is tagged `-` and
omitted). -/
def jsonOfAgg (q : MVAgg) : String :=
  jsonPre q ++ jsonLimitField q.limit ++ jsonPost q

/-- `func (q *MetricsViewAggregation) Key() string` (source lines 48-54). -/
def Key (q : MVAgg) : String :=
  "MetricsViewAggregation:" ++ jsonOfAgg q

/-- A small metrics view used by concrete evaluations: one declared
dimension and one declared measure over table `events`. -/
def mv0 : MetricsViewSpec :=
  { table := "events", timeDimension := "",
    dimensions := [{ name := "domain", column := "domain", expression := "", unnest := false }],
    measures := [{ name := "imp", expression := "SUM(imp)" }] }

/-- A metrics view with two declared dimensions, for the GROUP BY
ordinal evaluation. -/
def mv6 : MetricsViewSpec :=
  { table := "events", timeDimension := "",
    dimensions :=
      [{ name := "domain", column := "domain", expression := "", unnest := false },
       { name := "city", column := "city", expression := "", unnest := false }],
    measures := [{ name := "imp", expression := "SUM(imp)" }] }

/-- A baseline request: no dimensions, no measures, no filters, no pivot. -/
def q0 : MVAgg :=
  { metricsViewName := "mv", dimensions := [], measures := [], sort := [],
    timeRange := none, whereExpr := none, havingExpr := none, priority := 0,
    limit := none, offset := 0, metricsView := mv0,
    resolvedMVSecurity := none, pivotOn := [], filter := none }

/-- A pivot request with one dimension and one builtin COUNT measure, so
`cols = 2` and the pivot row budget is `maxPivotCells / 2 = 500000`. -/
def qPivot2 : MVAgg :=
  { q0 with
    dimensions := [{ name := "domain", timeGrain := TimeGrain.unspecified, timeZone := "" }],
    measures := [{ name := "m1", builtinMeasure := BuiltinMeasure.count, builtinMeasureArgs := [] }],
    pivotOn := ["domain"] }

/-- A baseline oracle on which every backend interaction succeeds. -/
def o0 : Oracle :=
  { acquireErr := none, dialect := Dialect.duckdb, withConnErr := none,
    baseQueryErr := none, createTempErr := none, countProbe := CountProbe.noRow,
    duckPivotErr := none, druidExecErr := none, connectErr := none,
    createTableSQLErr := none, execCreateErr := none, localConnErr := none,
    appenderErr := none, stream := [], rowsErr := none, localPivotErr := none }

/-- Oracle of the Druid manual-pivot scenario whose base stream holds
500002 rows, all of which scan and append fine. -/
def o1c : Oracle :=
  { o0 with
    dialect := Dialect.druid
    stream := List.replicate 500002 ScanOutcome.ok }

/-- Oracle of the DuckDB native-pivot scenario whose `COUNT(*)` probe
reports 500001 rows, one over the budget for two columns. -/
def o2c : Oracle :=
  { o0 with countProbe := CountProbe.row 500001 }

/-- Oracle of the Druid scenario whose base aggregation `Execute` fails. -/
def o3c : Oracle :=
  { o0 with dialect := Dialect.druid, druidExecErr := some ("exec failed") }

/-- Oracle whose local pivot-engine connection acquisition fails. -/
def o3conn : Oracle :=
  { o0 with dialect := Dialect.druid, localConnErr := some ("conn failed") }

/-- Pivot request with a nonzero offset (rejected by the builder). -/
def q5f : MVAgg := { qPivot2 with offset := 5 }

/-- Two-dimension request for the GROUP BY ordinal evaluation. -/
def q6f : MVAgg :=
  { q0 with
    metricsView := mv6,
    dimensions :=
      [{ name := "domain", timeGrain := TimeGrain.unspecified, timeZone := "" },
       { name := "city", timeGrain := TimeGrain.unspecified, timeZone := "" }],
    measures := [{ name := "m1", builtinMeasure := BuiltinMeasure.count, builtinMeasureArgs := [] }] }

/-- One-measure request used for the WHERE clause evaluation. -/
def q7f : MVAgg :=
  { q0 with
    measures := [{ name := "m1", builtinMeasure := BuiltinMeasure.count, builtinMeasureArgs := [] }] }

/-- Security policy carrying a row filter. -/
def pol7 : ResolvedSecurity := { rowFilter := "domain = 1" }

/-- Non-pivot request with an explicit limit of 0 and offset 3. -/
def q8f : MVAgg := { q7f with limit := some 0, offset := 3 }

/-- Request with empty dimensions and measures but an explicit limit of 0:
the build fails before the limit step and leaves the limit untouched. -/
def q10c : MVAgg := { q0 with limit := some 0 }

/-- Successful-build request with an explicit limit of 0. -/
def q10w : MVAgg := { q7f with limit := some 0 }

/-- Result of building the concrete pivot request `qPivot2`. -/
def build4 : MVAgg × Except String (String × List Arg) :=
  buildMetricsAggregationSQL qPivot2 mv0 Dialect.duckdb none

/-- The SQL compiled for `qPivot2`. -/
def sql4 : String :=
  match build4.2 with
  | Except.ok sa => sa.1
  | Except.error _ => ""

/-- The args compiled for `qPivot2`. -/
def args4 : List Arg :=
  match build4.2 with
  | Except.ok sa => sa.2
  | Except.error _ => []

/-- Result of building the concrete limit-0 request `q8f`. -/
def build8 : MVAgg × Except String (String × List Arg) :=
  buildMetricsAggregationSQL q8f mv0 Dialect.duckdb none

/-- The SQL compiled for `q8f`. -/
def sql8 : String :=
  match build8.2 with
  | Except.ok sa => sa.1
  | Except.error _ => ""

/-- The args compiled for `q8f`. -/
def args8 : List Arg :=
  match build8.2 with
  | Except.ok sa => sa.2
  | Except.error _ => []

/-- The clauses collected for the two-dimension request `q6f`. -/
def clauses6 : Clauses :=
  match buildClauses q6f mv6 Dialect.duckdb none with
  | Except.ok c => c
  | Except.error _ => ⟨[], [], [], "", "", "", ""⟩

/- ------------------------------------------------------------------ -/
/- Helper lemmas.                                                     -/
/- ------------------------------------------------------------------ -/

/-- String concatenation is empty exactly when both halves are. -/
theorem string_append_eq_empty_iff (s t : String) :
    s ++ t = "" ↔ s = "" ∧ t = "" := by
  constructor
  · intro h
    have hd : s.data ++ t.data = [] := by
      have h2 := congrArg String.data h
      rwa [String.data_append] at h2
    have h3 := List.append_eq_nil.mp hd
    exact ⟨String.ext h3.1, String.ext h3.2⟩
  · rintro ⟨rfl, rfl⟩
    rfl

/-- Shifting the ordinal list by one: appending the next ordinal and the
shifted tail equals the unshifted list one longer. -/
theorem ordinal_list_step (g : List String) (n k : Nat) :
    g ++ [toString (n + 1)]
        ++ (List.range k).map (fun i => toString (n + 1 + i + 1))
      = g ++ (List.range (k + 1)).map (fun i => toString (n + i + 1)) := by
  rw [List.append_assoc, List.singleton_append, List.range_succ_eq_map,
    List.map_cons, List.map_map]
  have h1 : toString (n + 1) = toString (n + 0 + 1) := by norm_num
  have h2 : (List.range k).map (fun i => toString (n + 1 + i + 1))
      = (List.range k).map ((fun i => toString (n + i + 1)) ∘ Nat.succ) := by
    apply List.map_congr_left
    intro a _
    simp only [Function.comp_apply]
    have h3 : n + 1 + a + 1 = n + Nat.succ a + 1 := by omega
    rw [h3]
  rw [h1, h2]

/-- Specification of the dimension loop: on success the ordinals recorded
for GROUP BY are exactly the SELECT-list positions of the dimensions,
continuing from the accumulator. -/
theorem processDims_spec (mv : MetricsViewSpec) (dialect : Dialect)
    (dims : List AggDimension) :
    ∀ acc out : DimAcc, processDims mv dialect dims acc = Except.ok out →
      out.groupCols = acc.groupCols
        ++ (List.range dims.length).map
          (fun i => toString (acc.selectCols.length + i + 1)) ∧
      ∃ extra : List String,
        out.selectCols = acc.selectCols ++ extra ∧ extra.length = dims.length := by
  induction dims with
  | nil =>
    intro acc out h
    simp only [processDims] at h
    cases h
    exact ⟨by simp, [], by simp, rfl⟩
  | cons d rest ih =>
    intro acc out h
    simp only [processDims] at h
    by_cases hg : d.timeGrain = TimeGrain.unspecified
    · rw [if_pos hg] at h
      cases hd : metricsViewDimension mv d.name with
      | error e => rw [hd] at h; cases h
      | ok dim =>
        rw [hd] at h
        obtain ⟨hgc, extra, hsel, hlen⟩ := ih _ _ h
        simp only [List.length_append, List.length_cons, List.length_nil,
          Nat.zero_add] at hgc hsel
        refine ⟨?_, (dimensionSelect mv dim dialect).1 :: extra, ?_, by simp [hlen]⟩
        · rw [hgc, List.length_cons]
          exact ordinal_list_step acc.groupCols acc.selectCols.length rest.length
        · rw [hsel]
          simp
    · rw [if_neg hg] at h
      cases hd : buildTimestampExpr mv d dialect with
      | error e => rw [hd] at h; cases h
      | ok ea =>
        rw [hd] at h
        obtain ⟨hgc, extra, hsel, hlen⟩ := ih _ _ h
        simp only [List.length_append, List.length_cons, List.length_nil,
          Nat.zero_add] at hgc hsel
        refine ⟨?_, (ea.1 ++ " as " ++ safeName d.name) :: extra, ?_, by simp [hlen]⟩
        · rw [hgc, List.length_cons]
          exact ordinal_list_step acc.groupCols acc.selectCols.length rest.length
        · rw [hsel]
          simp

/-- Specification of the measure loop: on success it only appends to the
accumulated SELECT list. -/
theorem processMeasures_appends (mv : MetricsViewSpec) (ms : List AggMeasure) :
    ∀ acc out : List String, processMeasures mv ms acc = Except.ok out →
      ∃ extra : List String, out = acc ++ extra := by
  induction ms with
  | nil =>
    intro acc out h
    simp only [processMeasures] at h
    cases h
    exact ⟨[], by simp⟩
  | cons m rest ih =>
    intro acc out h
    simp only [processMeasures] at h
    cases hb : m.builtinMeasure with
    | unspecified =>
      rw [hb] at h
      cases he : metricsViewMeasureExpression mv m.name with
      | error e => rw [he] at h; cases h
      | ok expr =>
        rw [he] at h
        obtain ⟨extra, hx⟩ := ih _ _ h
        exact ⟨[expr ++ " as " ++ safeName m.name] ++ extra,
          by rw [hx, List.append_assoc]⟩
    | count =>
      rw [hb] at h
      obtain ⟨extra, hx⟩ := ih _ _ h
      exact ⟨["COUNT(*) as " ++ safeName m.name] ++ extra,
        by rw [hx, List.append_assoc]⟩
    | countDistinct =>
      rw [hb] at h
      cases hargs : m.builtinMeasureArgs with
      | nil => rw [hargs] at h; cases h
      | cons a tl =>
        cases tl with
        | nil =>
          rw [hargs] at h
          simp only [] at h
          by_cases hs : a.getStringValue = ""
          · rw [if_pos hs] at h; cases h
          · rw [if_neg hs] at h
            obtain ⟨extra, hx⟩ := ih _ _ h
            exact ⟨["COUNT(DISTINCT " ++ safeName a.getStringValue ++ ") as "
              ++ safeName m.name] ++ extra, by rw [hx, List.append_assoc]⟩
        | cons b tl2 => rw [hargs] at h; cases h
    | other n => rw [hb] at h; cases h

/-- When the per-batch budget `maxCount` is at least the batch size, the
append loop of `pivotDruid` never reports the budget error on an
error-free stream: the counter is reset at every flush before it can
exceed the budget. -/
theorem appendLoop_ok_replicate (maxCount batchSize : Nat)
    (hb : 0 < batchSize) (hmb : batchSize ≤ maxCount) (n : Nat) :
    ∀ c : Nat, c < batchSize →
      appendLoop maxCount batchSize (List.replicate n ScanOutcome.ok) c
        = Except.ok () := by
  induction n with
  | zero =>
    intro c _
    simp [appendLoop]
  | succ n ih =>
    intro c hc
    rw [List.replicate_succ]
    simp only [appendLoop]
    have h1 : ¬ (c + 1 > maxCount) := by omega
    rw [if_neg h1]
    by_cases h2 : c + 1 ≥ batchSize
    · rw [if_pos h2]
      exact ih 0 hb
    · rw [if_neg h2]
      exact ih (c + 1) (by omega)

/-- With a pivot axis and a nonzero offset the builder always fails: any
clause-collection failure is already an error, and otherwise the pivot
branch rejects the offset. -/
theorem build_pivot_offset_error (q : MVAgg) (mv : MetricsViewSpec)
    (dialect : Dialect) (policy : Option ResolvedSecurity)
    (hp : q.pivotOn ≠ []) (ho : q.offset ≠ 0) :
    ∃ e, (buildMetricsAggregationSQL q mv dialect policy).2 = Except.error e := by
  unfold buildMetricsAggregationSQL
  cases hc : buildClauses q mv dialect policy with
  | error e => exact ⟨e, rfl⟩
  | ok c =>
    simp only []
    rw [if_pos hp, if_pos ho]
    exact ⟨_, rfl⟩

/-- When clause collection succeeds, the request returned by the builder
is the input with only the limit field normalized in place. -/
theorem build_fst_of_clauses_ok (q : MVAgg) (mv : MetricsViewSpec)
    (dialect : Dialect) (policy : Option ResolvedSecurity) (c : Clauses)
    (hc : buildClauses q mv dialect policy = Except.ok c) :
    (buildMetricsAggregationSQL q mv dialect policy).1
      = (if q.limit = some 0 then { q with limit := some 100 } else q) := by
  unfold buildMetricsAggregationSQL
  rw [hc]
  simp only []
  by_cases hp : q.pivotOn ≠ []
  · rw [if_pos hp]
    by_cases ho : q.offset ≠ 0
    · rw [if_pos ho]
    · rw [if_neg ho]
  · rw [if_neg hp]

/-- After the validation steps of `Resolve`, a pivot request with a
nonzero offset fails at the build and performs no backend execution. -/
theorem resolveAfterValidate_of_pivot_offset (q : MVAgg) (o : Oracle)
    (hp : q.pivotOn ≠ []) (ho : q.offset ≠ 0) :
    (resolveAfterValidate q o).retErr ≠ none ∧
    (resolveAfterValidate q o).executed = [] := by
  unfold resolveAfterValidate
  obtain ⟨e, he⟩ :=
    build_pivot_offset_error q q.metricsView o.dialect q.resolvedMVSecurity hp ho
  have hpair : buildMetricsAggregationSQL q q.metricsView o.dialect
      q.resolvedMVSecurity
      = ((buildMetricsAggregationSQL q q.metricsView o.dialect
          q.resolvedMVSecurity).1, Except.error e) := by
    rw [← he]
  rw [hpair]
  exact ⟨by simp, rfl⟩

/-- Claim C5: for every request with a non-empty pivot axis and a nonzero
offset, `buildMetricsAggregationSQL` returns an error and produces no
compiled query, and `Resolve` returns an error without attempting any
backend execution. -/
theorem c5_pivot_offset_rejected (q : MVAgg) (mv : MetricsViewSpec)
    (dialect : Dialect) (policy : Option ResolvedSecurity) (o : Oracle)
    (hp : q.pivotOn ≠ []) (ho : q.offset ≠ 0) :
    (∃ e, (buildMetricsAggregationSQL q mv dialect policy).2 = Except.error e) ∧
    (Resolve q o).retErr ≠ none ∧ (Resolve q o).executed = [] := by
  refine ⟨build_pivot_offset_error q mv dialect policy hp ho, ?_⟩
  unfold Resolve
  cases ha : o.acquireErr with
  | some e => exact ⟨by simp, rfl⟩
  | none =>
    simp only []
    by_cases hdial : o.dialect ≠ Dialect.duckdb ∧ o.dialect ≠ Dialect.druid
    · rw [if_pos hdial]
      exact ⟨by simp, rfl⟩
    · rw [if_neg hdial]
      by_cases htd : q.metricsView.timeDimension = ""
          ∧ isTimeRangeNil q.timeRange = false
      · rw [if_pos htd]
        exact ⟨by simp, rfl⟩
      · rw [if_neg htd]
        cases hf : q.filter with
        | none => exact resolveAfterValidate_of_pivot_offset q o hp ho
        | some f =>
          simp only []
          by_cases hw : q.whereExpr ≠ none
          · rw [if_pos hw]
            exact ⟨by simp, rfl⟩
          · rw [if_neg hw]
            exact resolveAfterValidate_of_pivot_offset _ o hp ho

/-- Witness for C5: the concrete pivot request with offset 5 is rejected
by the builder and `Resolve` executes nothing. -/
theorem c5_pivot_offset_rejected_witness :
    (q5f.pivotOn ≠ [] ∧ q5f.offset ≠ 0) ∧
    (∃ e, (buildMetricsAggregationSQL q5f mv0 Dialect.duckdb none).2
      = Except.error e) ∧
    (Resolve q5f o0).retErr ≠ none ∧ (Resolve q5f o0).executed = [] := by
  refine ⟨⟨by decide, by decide⟩, ?_⟩
  exact c5_pivot_offset_rejected q5f mv0 Dialect.duckdb none o0
    (by decide) (by decide)

/-- Claim C4: whenever the build succeeds for a request with a non-empty
pivot axis, the compiled SQL ends with a LIMIT clause equal to
`maxPivotCells / (len(Dimensions)+len(Measures)) + 1`, regardless of the
caller-supplied limit. -/
theorem c4_pivot_limit_override (q : MVAgg) (mv : MetricsViewSpec)
    (dialect : Dialect) (policy : Option ResolvedSecurity)
    (q2 : MVAgg) (sql : String) (args : List Arg)
    (h : buildMetricsAggregationSQL q mv dialect policy
      = (q2, Except.ok (sql, args)))
    (hp : q.pivotOn ≠ []) :
    ∃ pre : String,
      sql = pre ++ ("LIMIT "
        ++ toString (maxPivotCells / (q.dimensions.length + q.measures.length) + 1)) := by
  unfold buildMetricsAggregationSQL at h
  cases hc : buildClauses q mv dialect policy with
  | error e =>
    rw [hc] at h
    simp only [Prod.mk.injEq] at h
    cases h.2
  | ok c =>
    rw [hc] at h
    simp only [] at h
    rw [if_pos hp] at h
    by_cases ho : q.offset ≠ 0
    · rw [if_pos ho] at h
      simp only [Prod.mk.injEq] at h
      cases h.2
    · rw [if_neg ho] at h
      simp only [Prod.mk.injEq, Except.ok.injEq] at h
      exact ⟨_, h.2.1.symm⟩

/-- Witness for C4: the concrete pivot request with two columns compiles
to SQL ending in `LIMIT 500001`. -/
theorem c4_pivot_limit_override_witness :
    (buildMetricsAggregationSQL qPivot2 mv0 Dialect.duckdb none
      = (build4.1, Except.ok (sql4, args4))) ∧
    qPivot2.pivotOn ≠ [] ∧
    ∃ pre : String,
      sql4 = pre ++ ("LIMIT "
        ++ toString (maxPivotCells / (qPivot2.dimensions.length + qPivot2.measures.length) + 1)) := by
  refine ⟨by rfl, by decide, ?_⟩
  exact c4_pivot_limit_override qPivot2 mv0 Dialect.duckdb none
    build4.1 sql4 args4 (by rfl) (by decide)

/-- Claim C8: without a pivot axis, an explicit limit of 0 is normalized
in place to 100 and the compiled SQL carries `LIMIT 100`; a nil limit
emits an empty limit clause. -/
theorem c8_limit_zero_normalized (q : MVAgg) (mv : MetricsViewSpec)
    (dialect : Dialect) (policy : Option ResolvedSecurity)
    (q2 : MVAgg) (sql : String) (args : List Arg)
    (h : buildMetricsAggregationSQL q mv dialect policy
      = (q2, Except.ok (sql, args)))
    (hp : q.pivotOn = []) :
    (q.limit = some 0 →
      q2.limit = some 100 ∧ limitClauseOf q.limit = "LIMIT 100" ∧
      ∃ pre : String,
        sql = pre ++ "LIMIT 100" ++ " OFFSET " ++ toString q.offset) ∧
    (q.limit = none →
      limitClauseOf q.limit = "" ∧
      ∃ pre : String, sql = pre ++ " OFFSET " ++ toString q.offset) := by
  unfold buildMetricsAggregationSQL at h
  cases hc : buildClauses q mv dialect policy with
  | error e =>
    rw [hc] at h
    simp only [Prod.mk.injEq] at h
    cases h.2
  | ok c =>
    rw [hc] at h
    simp only [] at h
    rw [if_neg (by simp [hp])] at h
    simp only [Prod.mk.injEq, Except.ok.injEq] at h
    constructor
    · intro h0
      refine ⟨?_, ?_, ?_⟩
      · rw [← h.1, if_pos h0]
      · rw [h0]
        rfl
      · rw [← h.2.1, h0]
        exact ⟨_, rfl⟩
    · intro h0
      refine ⟨by rw [h0]; rfl, ?_⟩
      rw [← h.2.1, h0]
      exact ⟨_, rfl⟩

/-- Witness for C8: the concrete non-pivot request with limit 0 and
offset 3 compiles with the limit normalized to 100. -/
theorem c8_limit_zero_normalized_witness :
    (buildMetricsAggregationSQL q8f mv0 Dialect.duckdb none
      = (build8.1, Except.ok (sql8, args8))) ∧
    q8f.pivotOn = [] ∧ q8f.limit = some 0 ∧
    (build8.1.limit = some 100 ∧ limitClauseOf q8f.limit = "LIMIT 100" ∧
      ∃ pre : String,
        sql8 = pre ++ "LIMIT 100" ++ " OFFSET " ++ toString q8f.offset) := by
  refine ⟨by rfl, by decide, by decide, ?_⟩
  exact (c8_limit_zero_normalized q8f mv0 Dialect.duckdb none
    build8.1 sql8 args8 (by rfl) (by decide)).1 (by decide)

/-- Claim C6: on a successful build the GROUP BY clause consists exactly
of the ordinals 1..n of the n dimension entries, which precede all
measure entries in the SELECT list; with no dimensions no GROUP BY clause
is emitted. -/
theorem c6_group_by_ordinals (q : MVAgg) (mv : MetricsViewSpec)
    (dialect : Dialect) (policy : Option ResolvedSecurity) (c : Clauses)
    (h : buildClauses q mv dialect policy = Except.ok c) :
    (q.dimensions.length ≠ 0 →
      c.groupClause = "GROUP BY " ++ String.intercalate (", ")
        ((List.range q.dimensions.length).map (fun i => toString (i + 1)))) ∧
    (q.dimensions.length = 0 → c.groupClause = "") ∧
    ∃ dimSels measSels : List String,
      c.selectCols = dimSels ++ measSels ∧
      dimSels.length = q.dimensions.length := by
  unfold buildClauses at h
  by_cases h0 : q.dimensions = [] ∧ q.measures = []
  · rw [if_pos h0] at h
    cases h
  · rw [if_neg h0] at h
    cases hd : processDims mv dialect q.dimensions ⟨[], [], [], []⟩ with
    | error e => rw [hd] at h; cases h
    | ok dacc =>
      rw [hd] at h
      simp only [] at h
      cases hm : processMeasures mv q.measures dacc.selectCols with
      | error e => rw [hm] at h; cases h
      | ok selectCols =>
        rw [hm] at h
        cases h
        obtain ⟨hgc, extra, hsel, hlen⟩ :=
          processDims_spec mv dialect q.dimensions _ _ hd
        simp only [List.nil_append, List.length_nil, Nat.zero_add] at hgc hsel
        obtain ⟨extra2, hsel2⟩ := processMeasures_appends mv q.measures _ _ hm
        refine ⟨?_, ?_, dacc.selectCols, extra2, by simp [hsel2], by rw [hsel, hlen]⟩
        · intro hn
          show groupClauseOf dacc = _
          unfold groupClauseOf
          have hne : dacc.groupCols ≠ [] := by
            rw [hgc]
            simp only [ne_eq, List.map_eq_nil_iff, List.range_eq_nil]
            exact hn
          rw [if_neg hne, hgc]
        · intro hn
          show groupClauseOf dacc = _
          unfold groupClauseOf
          have he : dacc.groupCols = [] := by
            rw [hgc, hn]
            simp
          rw [if_pos he]

/-- Witness for C6: the concrete two-dimension request groups by the
ordinals `GROUP BY 1, 2`. -/
theorem c6_group_by_ordinals_witness :
    (buildClauses q6f mv6 Dialect.duckdb none = Except.ok clauses6) ∧
    q6f.dimensions.length ≠ 0 ∧
    clauses6.groupClause = "GROUP BY " ++ String.intercalate (", ")
      ((List.range q6f.dimensions.length).map (fun i => toString (i + 1))) ∧
    ∃ dimSels measSels : List String,
      clauses6.selectCols = dimSels ++ measSels ∧
      dimSels.length = q6f.dimensions.length := by
  have hmain := c6_group_by_ordinals q6f mv6 Dialect.duckdb none clauses6 (by rfl)
  exact ⟨by rfl, by decide, hmain.1 (by decide), hmain.2.2⟩

/-- Claim C9: every ORDER BY term of the base aggregation SQL gets the
` NULLS LAST` suffix exactly on the DuckDB dialect, with ` DESC` placed
before the null-ordering suffix; Druid terms get no null-ordering
suffix. -/
theorem c9_order_by_null_ordering (sort : List AggSort) :
    sortCriteria sort Dialect.duckdb
      = sort.map (fun s =>
          (safeName s.name ++ (if s.desc then " DESC" else "")) ++ " NULLS LAST") ∧
    sortCriteria sort Dialect.druid
      = sort.map (fun s => safeName s.name ++ (if s.desc then " DESC" else "")) := by
  constructor
  · unfold sortCriteria
    simp
  · unfold sortCriteria
    apply List.map_congr_left
    intro s _
    have hd : ¬ (Dialect.druid = Dialect.duckdb) := by decide
    rw [if_neg hd, String.append_empty]

/-- Claim C7: the compiled WHERE clause is empty exactly when there is no
time-range predicate, no non-blank structured WHERE fragment and no
non-empty security row filter; otherwise it starts with the `WHERE 1=1`
sentinel and ANDs the three parts in that order (the row filter in
parentheses). -/
theorem c7_where_clause (q : MVAgg) (mv : MetricsViewSpec) (dialect : Dialect)
    (policy : Option ResolvedSecurity) :
    (∀ c : Clauses, buildClauses q mv dialect policy = Except.ok c →
      c.whereClause = whereClauseOf q mv dialect policy) ∧
    (whereClauseOf q mv dialect policy = "" ↔
      timeClausePart q mv = "" ∧ trimSpace (whereFragPart q mv dialect) = ""
        ∧ rowFilterPart policy = "") ∧
    (whereClauseOf q mv dialect policy ≠ "" →
      whereClauseOf q mv dialect policy
        = "WHERE 1=1" ++ timeClausePart q mv
          ++ (if trimSpace (whereFragPart q mv dialect) ≠ ""
              then " AND " ++ whereFragPart q mv dialect else "")
          ++ (if rowFilterPart policy ≠ ""
              then " AND (" ++ rowFilterPart policy ++ ")" else "")) := by
  refine ⟨?_, ?_, ?_⟩
  · intro c h
    unfold buildClauses at h
    by_cases h0 : q.dimensions = [] ∧ q.measures = []
    · rw [if_pos h0] at h
      cases h
    · rw [if_neg h0] at h
      cases hd : processDims mv dialect q.dimensions ⟨[], [], [], []⟩ with
      | error e => rw [hd] at h; cases h
      | ok dacc =>
        rw [hd] at h
        simp only [] at h
        cases hm : processMeasures mv q.measures dacc.selectCols with
        | error e => rw [hm] at h; cases h
        | ok selectCols =>
          rw [hm] at h
          cases h
          rfl
  · simp only [whereClauseOf]
    split_ifs <;>
      simp_all [string_append_eq_empty_iff]
  · simp only [whereClauseOf]
    split_ifs <;>
      simp_all [string_append_eq_empty_iff, String.append_assoc]

/-- Witness for C7: with no time range and no WHERE expression but a row
filter, the concrete request compiles a `WHERE 1=1 AND (...)` clause. -/
theorem c7_where_clause_witness :
    (whereClauseOf q7f mv0 Dialect.duckdb (some pol7) ≠ "") ∧
    whereClauseOf q7f mv0 Dialect.duckdb (some pol7)
      = "WHERE 1=1" ++ timeClausePart q7f mv0
        ++ (if trimSpace (whereFragPart q7f mv0 Dialect.duckdb) ≠ ""
            then " AND " ++ whereFragPart q7f mv0 Dialect.duckdb else "")
        ++ (if rowFilterPart (some pol7) ≠ ""
            then " AND (" ++ rowFilterPart (some pol7) ++ ")" else "") := by
  refine ⟨by decide, ?_⟩
  exact (c7_where_clause q7f mv0 Dialect.duckdb (some pol7)).2.2 (by decide)

/-- Normalizing a zero limit to 100 changes the JSON-derived cache key:
the rendered `limit` field differs in length, so the marshalled strings
differ. -/
theorem key_changes_on_limit_normalization (q : MVAgg)
    (h0 : q.limit = some 0) :
    Key { q with limit := some 100 } ≠ Key q := by
  intro hk
  have hlen := congrArg String.length hk
  have e3 : jsonPre { q with limit := some 100 } = jsonPre q := rfl
  have e4 : jsonPost { q with limit := some 100 } = jsonPost q := rfl
  have e5 : ({ q with limit := some 100 } : MVAgg).limit = some 100 := rfl
  rw [Key, Key, jsonOfAgg, jsonOfAgg, e3, e4, e5, h0] at hlen
  simp only [String.length_append] at hlen
  have e1 : (jsonLimitField (some 100)).length = 12 := by decide
  have e2 : (jsonLimitField (some 0)).length = 10 := by decide
  rw [e1, e2] at hlen
  omega

/-- Counterexample to C10 as stated: a request whose build fails before
the limit step (empty dimensions and measures) keeps its explicit zero
limit. -/
theorem c10_counterexample_early_error :
    (buildMetricsAggregationSQL q10c mv0 Dialect.duckdb none).1.limit = some 0 ∧
    (buildMetricsAggregationSQL q10c mv0 Dialect.duckdb none).2
      = Except.error ("no dimensions or measures specified") := by
  constructor
  · rfl
  · rfl

/-- Claim C10 (amended): when clause collection succeeds,
`buildMetricsAggregationSQL` overwrites a limit of 0 in place to 100 and
changes no other field; `createPivotSQL` does the same unconditionally;
the mutation changes the JSON-derived cache key. -/
theorem c10_limit_mutation_frame (q : MVAgg) (mv : MetricsViewSpec)
    (dialect : Dialect) (policy : Option ResolvedSecurity) (tbl : String) :
    (∀ c : Clauses, buildClauses q mv dialect policy = Except.ok c →
      (buildMetricsAggregationSQL q mv dialect policy).1
        = (if q.limit = some 0 then { q with limit := some 100 } else q)) ∧
    ((createPivotSQL q tbl).1
      = (if q.limit = some 0 then { q with limit := some 100 } else q)) ∧
    (q.limit = some 0 → Key { q with limit := some 100 } ≠ Key q) := by
  refine ⟨?_, rfl, key_changes_on_limit_normalization q⟩
  intro c hc
  exact build_fst_of_clauses_ok q mv dialect policy c hc

/-- Witness for C10 (amended): the concrete request with limit 0 is
mutated in place to limit 100 by both builders, and its cache key
changes. -/
theorem c10_limit_mutation_frame_witness :
    q10w.limit = some 0 ∧
    (buildMetricsAggregationSQL q10w mv0 Dialect.duckdb none).1
      = { q10w with limit := some 100 } ∧
    (createPivotSQL q10w ("t")).1 = { q10w with limit := some 100 } ∧
    Key { q10w with limit := some 100 } ≠ Key q10w := by
  obtain ⟨h1, h2, h3⟩ :=
    c10_limit_mutation_frame q10w mv0 Dialect.duckdb none ("t")
  refine ⟨by decide, ?_, ?_, h3 (by decide)⟩
  · rw [h1 _ (by rfl), if_pos (by decide)]
  · rw [h2, if_pos (by decide)]

/-- On an oracle whose local-engine steps all succeed and whose append
loop completes without reporting the budget error, `pivotDruid` returns a
nil error and sets a result. -/
theorem pivotDruid_succeeds_of_loop_ok (q : MVAgg) (o : Oracle)
    (hc : o.connectErr = none) (h1 : o.createTableSQLErr = none)
    (h2 : o.execCreateErr = none) (h3 : o.localConnErr = none)
    (h4 : o.appenderErr = none)
    (h5 : appendLoop (maxPivotCells / q.cols) 10000 o.stream 0 = Except.ok ())
    (h6 : o.rowsErr = none) (h7 : o.localPivotErr = none) :
    (pivotDruid q o).retErr = none ∧ (pivotDruid q o).hasResult = true := by
  unfold pivotDruid
  rw [hc]
  simp only []
  rw [h1]
  simp only []
  rw [h2]
  simp only []
  rw [h3]
  simp only []
  rw [h4]
  simp only []
  rw [h5]
  simp only []
  rw [h6]
  simp only []
  rw [h7]
  exact ⟨rfl, rfl⟩

/-- Claim C1 evaluated at the failing input: with 2 columns the budget is
500000 rows, yet `pivotDruid` consumes a 500002-row stream completely and
succeeds, because the budget counter is reset to 0 at every 10000-row
batch flush. -/
theorem c1_manual_pivot_budget_not_enforced :
    (pivotDruid qPivot2 o1c).retErr = none ∧
    (pivotDruid qPivot2 o1c).hasResult = true ∧
    maxPivotCells / qPivot2.cols < 500002 := by
  have h5 : appendLoop (maxPivotCells / qPivot2.cols) 10000 o1c.stream 0
      = Except.ok () :=
    appendLoop_ok_replicate 500000 10000 (by norm_num) (by norm_num)
      500002 0 (by norm_num)
  have h := pivotDruid_succeeds_of_loop_ok qPivot2 o1c rfl rfl rfl rfl rfl
    h5 rfl rfl
  exact ⟨h.1, h.2, by decide⟩

/-- Claim C2 evaluated at the failing input: when the `COUNT(*)` probe
reports 500001 rows (over the 2-column budget), the DuckDB pivot path
fails with the cells error but the created temp table is not dropped —
the deferred drop is registered only after the check. -/
theorem c2_temp_table_leaked_on_limit_failure :
    (duckdbPivotPath qPivot2 o2c).retErr ≠ none ∧
    (duckdbPivotPath qPivot2 o2c).tempCreated = true ∧
    (duckdbPivotPath qPivot2 o2c).tempDropped = false ∧
    (Resolve qPivot2 o2c).retErr ≠ none ∧
    (Resolve qPivot2 o2c).tempCreated = true ∧
    (Resolve qPivot2 o2c).tempDropped = false := by
  decide

/-- Claim C3 evaluated at the failing inputs: a failing base `Execute` on
the Druid path makes `Resolve` return a nil error with no result (source
line 183 returns `nil`), and a failing local-connection acquisition makes
`pivotDruid` return a nil error with no result (source line 214 returns
`nil`). -/
theorem c3_backend_errors_swallowed :
    (Resolve qPivot2 o3c).retErr = none ∧
    (Resolve qPivot2 o3c).hasResult = false ∧
    (pivotDruid qPivot2 o3conn).retErr = none ∧
    (pivotDruid qPivot2 o3conn).hasResult = false := by
  decide

end RillAgg
